import Mathlib

/-!
Verification of `bag_app.py`, a single-file inventory and billing tool.

The embedding models:
* the `inventory` SQLite table as a list of `Part` rows, with the SQL
  `INSERT` / `UPDATE ... WHERE id = ?` statements as list operations;
* the pull-list session state (`st.session_state.pull_list`,
  `st.session_state.current_invoice_file`) as a `Session` structure;
* `create_pdf` as a pure document builder returning the logical content of
  the generated PDF (header lines, title, column headers, table rows,
  optional grand-total cell, optional footer).  Since `pdf.image 'logo.png'`
  runs unconditionally before anything is written, generation is fallible:
  it is parameterised by a flag saying whether `logo.png` exists and returns
  `none` (the raised `FileNotFoundError`) when it does not;
* the Add, Clear, Finalize and Send-Email button handlers as state
  transformers over inventory and session;
* the email `try/except` block as a sequence of fallible steps over an
  environment describing which external operations succeed.

Monetary values (`cost`, `price`, line totals) are stored as exact counts
of cents (integers): the app renders every monetary value with exactly two
decimal digits and its numeric inputs step by 0.01, so a REAL column value
is a whole number of cents and `f"${x:.2f}"` prints that count with a
decimal point inserted.
-/

namespace BagApp

/-- A row of the `inventory` table:
`(id, part_number, name, category, color, qty, cost, price)`.
`cost` and `price` are in cents. -/
structure Part where
  id : Nat
  part_number : String
  name : String
  category : String
  color : String
  qty : Int
  cost : Int
  price : Int
deriving DecidableEq

/-- The `inventory` table, rows in storage (insertion) order. -/
abbrev Inventory := List Part

/-- `SELECT * FROM inventory WHERE id = ?` (at most one row matters:
`id` is the primary key). -/
def findById (inv : Inventory) (pid : Nat) : Option Part :=
  inv.find? (fun r => r.id == pid)

/-- The `edit_form` submit handler:
`UPDATE inventory SET qty = ?, cost = ?, price = ? WHERE id = ?`. -/
def updatePart (inv : Inventory) (pid : Nat) (q c p : Int) : Inventory :=
  inv.map (fun r => if r.id == pid then { r with qty := q, cost := c, price := p } else r)

/-- One stock decrement issued by the Finalize handler:
`UPDATE inventory SET qty = qty - ? WHERE id = ?`. -/
def adjustQty (inv : Inventory) (pid : Nat) (delta : Int) : Inventory :=
  inv.map (fun r => if r.id == pid then { r with qty := r.qty - delta } else r)

/-- `INSERT INTO inventory (part_number, name, category, color, qty, cost, price)`
with the `INTEGER PRIMARY KEY` id auto-assigned as one more than the
largest existing id. -/
def insertPart (inv : Inventory) (pn nm cat col : String) (q c p : Int) : Inventory :=
  inv ++ [⟨(inv.map Part.id).foldl max 0 + 1, pn, nm, cat, col, q, c, p⟩]

/-- An entry of `st.session_state.pull_list` as built by the
"Add to Pull List" handler.  `price` and `total` are in cents. -/
structure PullItem where
  part_number : String
  name : String
  color : String
  qty : Nat
  price : Int
  total : Int
  id : Nat
deriving DecidableEq

/-- The dictionary appended by the "Add to Pull List" handler: SKU, name and
color copied from the selected row, the requested quantity, the price
snapshot `item_data['price']`, and `total = p_qty * item_data['price']`. -/
def mkPullItem (p : Part) (q : Nat) : PullItem :=
  ⟨p.part_number, p.name, p.color, q, p.price, (q : Int) * p.price, p.id⟩

/-- The session state of the "Create Pull List & Invoice" view. -/
structure Session where
  pull_list : List PullItem
  current_invoice_file : Option String
deriving DecidableEq

/-- "Add to Pull List" button: `st.session_state.pull_list.append(...)`. -/
def addToPullList (s : Session) (p : Part) (q : Nat) : Session :=
  { s with pull_list := s.pull_list ++ [mkPullItem p q] }

/-- "Clear List" button: `st.session_state.pull_list = []`. -/
def clearList (s : Session) : Session :=
  { s with pull_list := [] }

/-- Two-digit rendering of a cents remainder. -/
def twoDigits (n : Nat) : String :=
  (if n < 10 then "0" else "") ++ toString n

/-- Python's `f"${x:.2f}"` on a monetary value held as a count of cents:
a currency symbol, then the value with exactly two decimal digits. -/
def formatMoney (cents : Int) : String :=
  (if cents < 0 then "$-" else "$")
    ++ toString (cents.natAbs / 100) ++ "." ++ twoDigits (cents.natAbs % 100)

/-- The logical content of a PDF produced by `create_pdf`. -/
structure Doc where
  header : List String
  title : String
  cols : List String
  rows : List (List String)
  grandTotal : Option String
  footer : Option String
  outFile : String
deriving DecidableEq

/-- The fixed business-identity header lines of every document. -/
def businessHeader : List String :=
  ["SWaG Bag", "627 Mile Creek Rd, Edgemoor, SC 29712", "Email: sheldon.gilreath@gmail.com"]

/-- `create_pdf(data_list, title, filename, is_invoice)`.

`logoExists` models whether `logo.png` is present: the unconditional
`pdf.image('logo.png', 10, 8, 33)` raises before anything is written when
the file is missing, so the result is `none` in that case.  Otherwise the
document holds: the fixed header, the title, the column-header row (with a
`Total` column only in invoice mode), one row per item (with a formatted
`total` cell only in invoice mode), and — invoice mode only — the
grand-total cell (the running sum of `item['total']`) and the thank-you
footer.  The function returns `filename`, recorded in `outFile`. -/
def create_pdf (logoExists : Bool) (data_list : List PullItem) (title filename : String)
    (is_invoice : Bool := true) : Option Doc :=
  if logoExists = false then none
  else some
    { header := businessHeader
      title := title
      cols := ["SKU", "Item Name", "Color", "Qty"] ++ (if is_invoice then ["Total"] else [])
      rows := data_list.map (fun item =>
        [item.part_number, item.name, item.color, toString item.qty]
          ++ (if is_invoice then [formatMoney item.total] else []))
      grandTotal :=
        if is_invoice then
          some (formatMoney (data_list.foldl (fun acc item => acc + item.total) 0))
        else none
      footer := if is_invoice then some "Thank you for supporting my handmade business!" else none
      outFile := filename }

/-- Python's `customer.replace(' ', '_')` used to derive the invoice
filename. -/
def replaceSpaces (s : String) : String :=
  ⟨s.data.map (fun ch => if ch = ' ' then '_' else ch)⟩

/-- The "Finalize & Deduct Stock" button handler.  In order:
1. for each pull-list item, issue `UPDATE inventory SET qty = qty - ? WHERE id = ?`
   (each an independent, immediately committed statement);
2. call `create_pdf` on the full item sequence in invoice mode;
3. on success, record `current_invoice_file` and reset `pull_list` to `[]`.
If `create_pdf` raises (missing logo), the exception propagates: the
decrements are already committed but the session is left untouched. -/
def finalize (logoExists : Bool) (inv : Inventory) (s : Session) (customer : String) :
    Inventory × Session × Option Doc :=
  let inv' := s.pull_list.foldl (fun acc item => adjustQty acc item.id (item.qty : Int)) inv
  match create_pdf logoExists s.pull_list ("INVOICE: " ++ customer)
      ("invoice_" ++ replaceSpaces customer ++ ".pdf") true with
  | none => (inv', s, none)
  | some doc =>
      (inv', { pull_list := [], current_invoice_file := some doc.outFile }, some doc)

/-- Which external operations of the "Send Email via Gmail" handler
succeed: the two `st.secrets` lookups, reading the attachment file,
connecting to `smtp.gmail.com:587` (with `starttls`), `login`, and
`send_message`. -/
structure EmailEnv where
  hasEmailUser : Bool
  hasEmailPass : Bool
  attachmentReadable : Bool
  connectOk : Bool
  loginOk : Bool
  sendOk : Bool
deriving DecidableEq

/-- The body of the `try` block, step by step in source order; the first
failing step raises, modelled as `Except.error` with the exception text. -/
def emailSteps (env : EmailEnv) : Except String Unit :=
  if env.hasEmailUser = false then .error "KeyError: EMAIL_USER"
  else if env.hasEmailPass = false then .error "KeyError: EMAIL_PASS"
  else if env.attachmentReadable = false then .error "attachment unreadable"
  else if env.connectOk = false then .error "connection refused"
  else if env.loginOk = false then .error "authentication failed"
  else if env.sendOk = false then .error "send failed"
  else .ok ()

/-- The "Send Email via Gmail" button handler: run the `try` body; on
success show a success message and reset `current_invoice_file` to `None`;
on any exception show the failure message and leave the session untouched
(the reset line is inside the `try`, after the send). -/
def sendEmailHandler (env : EmailEnv) (s : Session) : Session × String :=
  match emailSteps env with
  | .ok _ => ({ s with current_invoice_file := none }, "Email Sent!")
  | .error e =>
      (s, "Email failed. Ensure .streamlit/secrets.toml is correct. Error: " ++ e)

/-- The add-time invariant of a pull-list item: its stored line total is
its quantity times its snapshotted unit price. -/
def wfItem (it : PullItem) : Prop :=
  it.total = (it.qty : Int) * it.price

instance (it : PullItem) : Decidable (wfItem it) := by unfold wfItem; infer_instance

/-! ### Helper lemmas -/

/-- `find?` by id commutes with mapping an id-preserving row transform. -/
theorem find?_map_of_id_pres (f : Part → Part) (hf : ∀ r, (f r).id = r.id)
    (inv : Inventory) (pid : Nat) :
    (inv.map f).find? (fun r => r.id == pid)
      = ((inv.find? (fun r => r.id == pid)).map f) := by
  induction inv with
  | nil => rfl
  | cons a t ih =>
    simp only [List.map_cons, List.find?_cons, hf a]
    cases hb : (a.id == pid) <;> simp [ih]

/-- Both SQL `UPDATE` shapes preserve the `id` column. -/
theorem updateRow_id_pres (pid : Nat) (q c p : Int) (r : Part) :
    ((if r.id == pid then { r with qty := q, cost := c, price := p } else r) : Part).id = r.id := by
  by_cases h : r.id == pid <;> simp [h]

theorem adjustRow_id_pres (pid : Nat) (delta : Int) (r : Part) :
    ((if r.id == pid then { r with qty := r.qty - delta } else r) : Part).id = r.id := by
  by_cases h : r.id == pid <;> simp [h]

/-! ### Claims -/

/-- C3: `UPDATE inventory SET qty = qty - ? WHERE id = ?` sets the stored
quantity of the row with the given id to exactly (old quantity − delta),
with no lower bound: if the delta exceeds the stock on hand the stored
quantity becomes negative. -/
theorem C3_adjustQty_exact (inv : Inventory) (pid : Nat) (delta : Int) (r : Part)
    (h : findById inv pid = some r) :
    findById (adjustQty inv pid delta) pid = some { r with qty := r.qty - delta }
    ∧ (r.qty < delta → ({ r with qty := r.qty - delta } : Part).qty < 0) := by
  have hid : r.id == pid := by
    have := List.find?_some h
    simpa using this
  refine ⟨?_, ?_⟩
  · unfold findById adjustQty
    rw [find?_map_of_id_pres _ (adjustRow_id_pres pid delta) inv pid]
    unfold findById at h
    rw [h]
    have hide : r.id = pid := by simpa using hid
    simp [hide]
  · intro hlt
    simpa using by omega

/-- C3 witness: a part with 10 in stock adjusted by 12 ends at −2. -/
theorem C3_adjustQty_exact_witness :
    findById (adjustQty [⟨1, "Z-100", "Zip", "Zipper", "Black", 10, 100, 250⟩] 1 12) 1
      = some ⟨1, "Z-100", "Zip", "Zipper", "Black", -2, 100, 250⟩
    ∧ ((10 : Int) < 12 → ((⟨1, "Z-100", "Zip", "Zipper", "Black", 10 - 12, 100, 250⟩ : Part)).qty < 0) :=
  C3_adjustQty_exact [⟨1, "Z-100", "Zip", "Zipper", "Black", 10, 100, 250⟩] 1 12
    ⟨1, "Z-100", "Zip", "Zipper", "Black", 10, 100, 250⟩ (by decide)

/-- C4: the `edit_form` handler's
`UPDATE inventory SET qty = ?, cost = ?, price = ? WHERE id = ?` —
if no row carries the identifier the whole table is unchanged (the update
is a total function: no error is raised); if the row with the identifier
exists, afterwards its `qty`, `cost`, `price` equal the given values while
`id`, `part_number`, `name`, `category`, `color` are kept, and every row at
a position whose id differs is unchanged. -/
theorem C4_updatePart_frame (inv : Inventory) (pid : Nat) (q c p : Int) :
    ((∀ r ∈ inv, r.id ≠ pid) → updatePart inv pid q c p = inv)
    ∧ (∀ r, findById inv pid = some r →
        findById (updatePart inv pid q c p) pid
          = some { r with qty := q, cost := c, price := p })
    ∧ (updatePart inv pid q c p).length = inv.length
    ∧ ∀ i (h : i < inv.length) (h2 : i < (updatePart inv pid q c p).length),
        if (inv.get ⟨i, h⟩).id = pid
        then (updatePart inv pid q c p).get ⟨i, h2⟩
              = { inv.get ⟨i, h⟩ with qty := q, cost := c, price := p }
        else (updatePart inv pid q c p).get ⟨i, h2⟩ = inv.get ⟨i, h⟩ := by
  refine ⟨?_, ?_, ?_, ?_⟩
  · intro hall
    unfold updatePart
    rw [List.map_congr_left (g := id), List.map_id]
    intro r hr
    simp [hall r hr]
  · intro r h
    have hid : r.id == pid := by simpa using List.find?_some h
    have hide : r.id = pid := by simpa using hid
    unfold findById updatePart
    rw [find?_map_of_id_pres _ (updateRow_id_pres pid q c p) inv pid]
    unfold findById at h
    rw [h]
    simp [hide]
  · simp [updatePart]
  · intro i h h2
    unfold updatePart
    simp only [List.get_eq_getElem, List.getElem_map]
    by_cases hc : inv[i].id = pid <;> simp [hc]

/-- C4 witness: a two-row table; updating id 2 rewrites only that row's
mutable fields, and updating the absent id 9 leaves the table unchanged. -/
theorem C4_updatePart_frame_witness :
    ((∀ r ∈ ([⟨1, "A", "a", "", "", 4, 10, 20⟩, ⟨2, "B", "b", "", "", 5, 30, 40⟩] : Inventory),
        r.id ≠ 9) →
      updatePart [⟨1, "A", "a", "", "", 4, 10, 20⟩, ⟨2, "B", "b", "", "", 5, 30, 40⟩] 9 7 8 9
        = [⟨1, "A", "a", "", "", 4, 10, 20⟩, ⟨2, "B", "b", "", "", 5, 30, 40⟩])
    ∧ (∀ r, findById [⟨1, "A", "a", "", "", 4, 10, 20⟩, ⟨2, "B", "b", "", "", 5, 30, 40⟩] 9
          = some r →
        findById (updatePart [⟨1, "A", "a", "", "", 4, 10, 20⟩,
            ⟨2, "B", "b", "", "", 5, 30, 40⟩] 9 7 8 9) 9
          = some { r with qty := 7, cost := 8, price := 9 })
    ∧ (updatePart [⟨1, "A", "a", "", "", 4, 10, 20⟩,
          ⟨2, "B", "b", "", "", 5, 30, 40⟩] 9 7 8 9).length
        = ([⟨1, "A", "a", "", "", 4, 10, 20⟩, ⟨2, "B", "b", "", "", 5, 30, 40⟩] : Inventory).length
    ∧ ∀ i (h : i < ([⟨1, "A", "a", "", "", 4, 10, 20⟩,
          ⟨2, "B", "b", "", "", 5, 30, 40⟩] : Inventory).length)
        (h2 : i < (updatePart [⟨1, "A", "a", "", "", 4, 10, 20⟩,
          ⟨2, "B", "b", "", "", 5, 30, 40⟩] 9 7 8 9).length),
        if ((([⟨1, "A", "a", "", "", 4, 10, 20⟩,
            ⟨2, "B", "b", "", "", 5, 30, 40⟩] : Inventory).get ⟨i, h⟩).id = 9)
        then (updatePart [⟨1, "A", "a", "", "", 4, 10, 20⟩,
              ⟨2, "B", "b", "", "", 5, 30, 40⟩] 9 7 8 9).get ⟨i, h2⟩
            = { ([⟨1, "A", "a", "", "", 4, 10, 20⟩,
                ⟨2, "B", "b", "", "", 5, 30, 40⟩] : Inventory).get ⟨i, h⟩ with
                qty := 7, cost := 8, price := 9 }
        else (updatePart [⟨1, "A", "a", "", "", 4, 10, 20⟩,
              ⟨2, "B", "b", "", "", 5, 30, 40⟩] 9 7 8 9).get ⟨i, h2⟩
            = ([⟨1, "A", "a", "", "", 4, 10, 20⟩,
                ⟨2, "B", "b", "", "", 5, 30, 40⟩] : Inventory).get ⟨i, h⟩ :=
  C4_updatePart_frame [⟨1, "A", "a", "", "", 4, 10, 20⟩, ⟨2, "B", "b", "", "", 5, 30, 40⟩]
    9 7 8 9

/-- C6: in pull-list mode (`is_invoice = False`) the document's column
headers are exactly SKU, Item Name, Color, Qty; every row has exactly those
four cells (no Total cell); and there is no grand-total row and no
thank-you footer, whatever the items are. -/
theorem C6_pull_list_mode (items : List PullItem) (title fn : String) :
    (create_pdf true items title fn false).map Doc.cols
      = some ["SKU", "Item Name", "Color", "Qty"]
    ∧ (create_pdf true items title fn false).map Doc.rows
      = some (items.map (fun it => [it.part_number, it.name, it.color, toString it.qty]))
    ∧ (create_pdf true items title fn false).map Doc.grandTotal = some none
    ∧ (create_pdf true items title fn false).map Doc.footer = some none := by
  refine ⟨?_, ?_, ?_, ?_⟩ <;> simp [create_pdf]

/-- C10: `create_pdf` in invoice mode on an empty item sequence still
produces the header, the title, the column-header row, zero item rows, a
grand-total cell of exactly `$0.00`, the thank-you footer, and records the
given filename. -/
theorem C10_empty_invoice (title fn : String) :
    create_pdf true [] title fn true
      = some { header := businessHeader
               title := title
               cols := ["SKU", "Item Name", "Color", "Qty", "Total"]
               rows := []
               grandTotal := some "$0.00"
               footer := some "Thank you for supporting my handmade business!"
               outFile := fn } := rfl

/-- A left fold accumulating `item['total']` equals the accumulator plus
the sum of the items' totals. -/
theorem foldl_total_eq_sum (items : List PullItem) (c : Int) :
    items.foldl (fun acc item => acc + item.total) c = c + (items.map PullItem.total).sum := by
  induction items generalizing c with
  | nil => simp
  | cons a t ih => simp [List.foldl_cons, ih, add_assoc]

/-- C1: in invoice mode, when every item carries the add-time invariant
`total = qty * price` (with `price` the snapshot stored in the item, not a
field of the inventory — `create_pdf` never reads the inventory), each
rendered row's Total cell is the rendering of that item's
quantity × snapshot price, and the grand-total cell is the rendering of
the sum of all the line totals. -/
theorem C1_invoice_totals (items : List PullItem) (title fn : String)
    (hwf : ∀ it ∈ items, it.total = (it.qty : Int) * it.price) :
    (create_pdf true items title fn true).map Doc.rows
      = some (items.map (fun it =>
          [it.part_number, it.name, it.color, toString it.qty,
           formatMoney ((it.qty : Int) * it.price)]))
    ∧ (create_pdf true items title fn true).map Doc.grandTotal
      = some (some (formatMoney
          ((items.map (fun it => (it.qty : Int) * it.price)).sum))) := by
  constructor
  · simp only [create_pdf, Bool.true_eq_false, if_false, Option.map_some, if_true]
    refine congrArg some (List.map_congr_left fun it hit => ?_)
    simp [hwf it hit]
  · simp only [create_pdf, Bool.true_eq_false, if_false, Option.map_some, if_true]
    rw [foldl_total_eq_sum items 0, zero_add,
      List.map_congr_left (fun it hit => hwf it hit)]
    rfl

/-- C1 witness: two concrete items whose totals were snapshotted at add
time render as `$7.50` and `$2.00` with grand total `$9.50`. -/
theorem C1_invoice_totals_witness :
    (create_pdf true
        [⟨"Z-100", "Zipper Pull", "Nickel", 3, 250, 750, 1⟩,
         ⟨"F-200", "Canvas", "Natural", 2, 100, 200, 2⟩] "INVOICE: X" "inv.pdf" true).map Doc.rows
      = some (([⟨"Z-100", "Zipper Pull", "Nickel", 3, 250, 750, 1⟩,
          ⟨"F-200", "Canvas", "Natural", 2, 100, 200, 2⟩] : List PullItem).map (fun it =>
            [it.part_number, it.name, it.color, toString it.qty,
             formatMoney ((it.qty : Int) * it.price)]))
    ∧ (create_pdf true
        [⟨"Z-100", "Zipper Pull", "Nickel", 3, 250, 750, 1⟩,
         ⟨"F-200", "Canvas", "Natural", 2, 100, 200, 2⟩] "INVOICE: X" "inv.pdf" true).map
          Doc.grandTotal
      = some (some (formatMoney
          ((([⟨"Z-100", "Zipper Pull", "Nickel", 3, 250, 750, 1⟩,
             ⟨"F-200", "Canvas", "Natural", 2, 100, 200, 2⟩] : List PullItem).map
              (fun it => (it.qty : Int) * it.price)).sum))) :=
  C1_invoice_totals
    [⟨"Z-100", "Zipper Pull", "Nickel", 3, 250, 750, 1⟩,
     ⟨"F-200", "Canvas", "Natural", 2, 100, 200, 2⟩] "INVOICE: X" "inv.pdf" (by decide)

/-- C5: two Add operations for the same part (quantities `a` then `b`)
append two separate line items at the end of the session in order of
addition, and the invoice generated from the resulting list has one row
per line item (hence two separate rows for the two adds) — never a merged
row. -/
theorem C5_no_merge (s : Session) (p : Part) (a b : Nat) (title fn : String) :
    (addToPullList (addToPullList s p a) p b).pull_list
      = s.pull_list ++ [mkPullItem p a, mkPullItem p b]
    ∧ (create_pdf true (addToPullList (addToPullList s p a) p b).pull_list title fn true).map
        (fun d => d.rows.length) = some (s.pull_list.length + 2) := by
  constructor
  · simp [addToPullList]
  · simp [create_pdf, addToPullList]

/-- C2: on a non-empty session, Finalize (with `logo.png` present) yields
exactly: the inventory after one `qty = qty - item.qty` decrement per item,
folded in list order; the session cleared, with the current-invoice pointer
set to the customer-derived filename; and the invoice document built by
`create_pdf` from the full pre-clear item sequence. -/
theorem C2_finalize_order (inv : Inventory) (s : Session) (customer : String)
    (_hne : s.pull_list ≠ []) :
    finalize true inv s customer
      = (s.pull_list.foldl (fun acc item => adjustQty acc item.id (item.qty : Int)) inv,
         { pull_list := []
           current_invoice_file := some ("invoice_" ++ replaceSpaces customer ++ ".pdf") },
         create_pdf true s.pull_list ("INVOICE: " ++ customer)
           ("invoice_" ++ replaceSpaces customer ++ ".pdf") true) := by
  simp [finalize, create_pdf]

/-- C2 witness, the spec's scenario: part `Z-100` with `qty = 10`,
`price = 2.50` (250 cents), pulled with quantity 3, customer
"Retail Customer": the stored quantity ends at 7 and the invoice has a
single line of total `$7.50`, equal to the grand total. -/
theorem C2_finalize_order_witness :
    finalize true [⟨1, "Z-100", "Zipper Pull", "Hardware", "Nickel", 10, 100, 250⟩]
        (addToPullList ⟨[], none⟩ ⟨1, "Z-100", "Zipper Pull", "Hardware", "Nickel", 10, 100, 250⟩ 3)
        "Retail Customer"
      = ([⟨1, "Z-100", "Zipper Pull", "Hardware", "Nickel", 7, 100, 250⟩],
         { pull_list := [], current_invoice_file := some "invoice_Retail_Customer.pdf" },
         some { header := businessHeader
                title := "INVOICE: Retail Customer"
                cols := ["SKU", "Item Name", "Color", "Qty", "Total"]
                rows := [["Z-100", "Zipper Pull", "Nickel", "3", "$7.50"]]
                grandTotal := some "$7.50"
                footer := some "Thank you for supporting my handmade business!"
                outFile := "invoice_Retail_Customer.pdf" }) := by
  rw [C2_finalize_order _ _ _ (by decide)]
  decide

/-- C9: when `logo.png` is missing, `create_pdf` raises inside Finalize
after the decrement loop: every stock decrement is already committed, the
pull list is not cleared, the current-invoice pointer is not recorded, and
no document exists — store and session are left inconsistent with no
rollback. -/
theorem C9_missing_logo_no_rollback (inv : Inventory) (s : Session) (customer : String)
    (_hne : s.pull_list ≠ []) :
    finalize false inv s customer
      = (s.pull_list.foldl (fun acc item => adjustQty acc item.id (item.qty : Int)) inv,
         s, none) := by
  simp [finalize, create_pdf]

/-- C9 witness: the scenario part pulled with quantity 3 but no
`logo.png`: stock already at 7, session untouched, no invoice. -/
theorem C9_missing_logo_no_rollback_witness :
    finalize false [⟨1, "Z-100", "Zipper Pull", "Hardware", "Nickel", 10, 100, 250⟩]
        ⟨[⟨"Z-100", "Zipper Pull", "Nickel", 3, 250, 750, 1⟩], none⟩ "Retail Customer"
      = ([⟨1, "Z-100", "Zipper Pull", "Hardware", "Nickel", 7, 100, 250⟩],
         ⟨[⟨"Z-100", "Zipper Pull", "Nickel", 3, 250, 750, 1⟩], none⟩, none) := by
  rw [C9_missing_logo_no_rollback _ _ _ (by decide)]
  decide

/-- C8: Add establishes `total = qty * price` for the new item (with
`price` copied from the part and `qty` the requested quantity), and no
session operation modifies an item afterwards: after Add all items still
satisfy the invariant, Clear leaves no items, the session Finalize leaves
behind (cleared on success, untouched on failure) only satisfies it, and
document generation reads the item sequence unchanged. -/
theorem C8_snapshot_invariant (s : Session) (p : Part) (q : Nat) (logoExists : Bool)
    (inv : Inventory) (customer : String)
    (hwf : ∀ it ∈ s.pull_list, wfItem it) :
    wfItem (mkPullItem p q)
    ∧ (mkPullItem p q).price = p.price
    ∧ (mkPullItem p q).qty = q
    ∧ (∀ it ∈ (addToPullList s p q).pull_list, wfItem it)
    ∧ (clearList s).pull_list = []
    ∧ (∀ it ∈ (finalize logoExists inv s customer).2.1.pull_list, wfItem it)
    ∧ (finalize logoExists inv s customer).2.2
        = create_pdf logoExists s.pull_list ("INVOICE: " ++ customer)
            ("invoice_" ++ replaceSpaces customer ++ ".pdf") true := by
  refine ⟨rfl, rfl, rfl, ?_, rfl, ?_, ?_⟩
  · intro it hit
    rcases (by simpa [addToPullList] using hit : it ∈ s.pull_list ∨ it = mkPullItem p q) with
      hmem | rfl
    · exact hwf it hmem
    · rfl
  · cases logoExists with
    | false =>
        intro it hit
        exact hwf it (by simpa [finalize, create_pdf] using hit)
    | true =>
        intro it hit
        simp [finalize, create_pdf] at hit
  · cases logoExists <;> simp [finalize, create_pdf]

/-- C8 witness: a session holding one well-formed item, a fresh part
added with quantity 2; the invariant holds for the new item and after
every session operation. -/
theorem C8_snapshot_invariant_witness :
    wfItem (mkPullItem ⟨2, "F-200", "Canvas", "Fabric", "Natural", 5, 50, 100⟩ 2)
    ∧ (mkPullItem ⟨2, "F-200", "Canvas", "Fabric", "Natural", 5, 50, 100⟩ 2).price = 100
    ∧ (mkPullItem ⟨2, "F-200", "Canvas", "Fabric", "Natural", 5, 50, 100⟩ 2).qty = 2
    ∧ (∀ it ∈ (addToPullList ⟨[⟨"Z-100", "Zipper Pull", "Nickel", 3, 250, 750, 1⟩], none⟩
          ⟨2, "F-200", "Canvas", "Fabric", "Natural", 5, 50, 100⟩ 2).pull_list, wfItem it)
    ∧ (clearList ⟨[⟨"Z-100", "Zipper Pull", "Nickel", 3, 250, 750, 1⟩], none⟩).pull_list = []
    ∧ (∀ it ∈ (finalize true [⟨1, "Z-100", "Zipper Pull", "Hardware", "Nickel", 10, 100, 250⟩]
          ⟨[⟨"Z-100", "Zipper Pull", "Nickel", 3, 250, 750, 1⟩], none⟩ "C").2.1.pull_list, wfItem it)
    ∧ (finalize true [⟨1, "Z-100", "Zipper Pull", "Hardware", "Nickel", 10, 100, 250⟩]
          ⟨[⟨"Z-100", "Zipper Pull", "Nickel", 3, 250, 750, 1⟩], none⟩ "C").2.2
        = create_pdf true [⟨"Z-100", "Zipper Pull", "Nickel", 3, 250, 750, 1⟩] ("INVOICE: " ++ "C")
            ("invoice_" ++ replaceSpaces "C" ++ ".pdf") true :=
  C8_snapshot_invariant ⟨[⟨"Z-100", "Zipper Pull", "Nickel", 3, 250, 750, 1⟩], none⟩
    ⟨2, "F-200", "Canvas", "Fabric", "Natural", 5, 50, 100⟩ 2 true
    [⟨1, "Z-100", "Zipper Pull", "Hardware", "Nickel", 10, 100, 250⟩] "C" (by decide)

/-- C7: any failing step of the email `try` body (secret lookup,
attachment read, connection, authentication, send) is caught and surfaced
as the failure message, and the session — in particular
`current_invoice_file`, the "generated" invoice pointer — is unchanged, so
Send can be re-attempted on the same document; only a fully successful
send clears the pointer (leaving the "generated" state). -/
theorem C7_send_failure_retry (env : EmailEnv) (s : Session) :
    (∀ e, emailSteps env = .error e →
      sendEmailHandler env s
        = (s, "Email failed. Ensure .streamlit/secrets.toml is correct. Error: " ++ e))
    ∧ (emailSteps env = .ok () →
      sendEmailHandler env s = ({ s with current_invoice_file := none }, "Email Sent!")) := by
  constructor
  · intro e he
    simp [sendEmailHandler, he]
  · intro hok
    simp [sendEmailHandler, hok]

/-- C7 witness: with bad credentials (login refused) the handler reports
the failure and keeps the invoice pointer, allowing a retry; with
everything succeeding it clears the pointer. -/
theorem C7_send_failure_retry_witness :
    (sendEmailHandler ⟨true, true, true, true, false, true⟩
        ⟨[], some "invoice_Retail_Customer.pdf"⟩
      = (⟨[], some "invoice_Retail_Customer.pdf"⟩,
         "Email failed. Ensure .streamlit/secrets.toml is correct. Error: "
           ++ "authentication failed"))
    ∧ (sendEmailHandler ⟨true, true, true, true, true, true⟩
        ⟨[], some "invoice_Retail_Customer.pdf"⟩
      = (⟨[], none⟩, "Email Sent!")) :=
  ⟨(C7_send_failure_retry ⟨true, true, true, true, false, true⟩
      ⟨[], some "invoice_Retail_Customer.pdf"⟩).1 "authentication failed" rfl,
   (C7_send_failure_retry ⟨true, true, true, true, true, true⟩
      ⟨[], some "invoice_Retail_Customer.pdf"⟩).2 rfl⟩

end BagApp
